import Mathlib

/-!
# Shallow embedding of `app.py` (Aidstack Medical AI backend)

The backend is a Flask app with one module-level mutable dict
(`ACTIVE_SESSIONS`), an audit logger, a SHA-256-based redaction helper
and five HTTP handlers.  Each handler is embedded as a pure function
from the session store and the parsed JSON request to a result record
holding the new store, the audit events written, the outbound provider
calls made, and the HTTP response.

Modelling conventions:
* every `datetime.utcnow()` call issued while serving one request is
  modelled as the single request time `now : Nat`;
* `secrets.token_urlsafe(32)` is a random source, so the generated token
  is a parameter of `create_session`;
* the three provider SDKs are external collaborators, modelled as one
  oracle `ProviderCall → String` mapping the outbound request to the raw
  text the provider returns;
* Python exceptions raised by `process_with_ai` are an `Except String`
  value whose error component is the exception message.
-/

/-- A JSON scalar as it appears in audit-log `details` mappings and in
response bodies. -/
inductive JVal where
  | str : String → JVal
  | nat : Nat → JVal
  | bool : Bool → JVal
  | null : JVal
deriving DecidableEq, Repr

/-- One `ACTIVE_SESSIONS` record: `{'created_at': ..., 'last_active': ...}`. -/
structure Session where
  created_at : Nat
  last_active : Nat
deriving DecidableEq, Repr

/-- The `ACTIVE_SESSIONS` dict, as an association list with the usual
dict semantics (lookup by key, assignment replaces, `del` removes). -/
abbrev Store := List (String × Session)

/-- `token in ACTIVE_SESSIONS` / `ACTIVE_SESSIONS[token]` read access. -/
def storeLookup : Store → String → Option Session
  | [], _ => none
  | (k, v) :: rest, t => if k = t then some v else storeLookup rest t

/-- `del ACTIVE_SESSIONS[token]`: remove the key. -/
def storeErase (s : Store) (t : String) : Store :=
  s.filter (fun p => p.1 != t)

/-- `ACTIVE_SESSIONS[token] = record`: dict assignment (replaces any
previous binding of the key). -/
def storeInsert (s : Store) (t : String) (v : Session) : Store :=
  (t, v) :: storeErase s t

/-- `ACTIVE_SESSIONS[token]['last_active'] = now`: update one field of
the record bound to `t`, touching nothing else. -/
def storeTouch (s : Store) (t : String) (now : Nat) : Store :=
  s.map (fun p => if p.1 = t then (p.1, { p.2 with last_active := now }) else p)

/-- The keys of the store. -/
def storeKeys (s : Store) : List String := s.map Prod.fst

/-- Spec §4.1 `isValid`: the membership test `token in ACTIVE_SESSIONS`
that the handlers use inline.  It consults only the key set, never the
timestamps. -/
def isValid (s : Store) (t : String) : Bool :=
  (storeLookup s t).isSome

/-- One audit record, as assembled by `audit_log`. -/
structure AuditEvent where
  timestamp : Nat
  event : String
  session_id : Option String
  details : List (String × JVal)
deriving DecidableEq, Repr

/-- `audit_log(event_type, details, session_id)`: builds the log entry
written to the sink. -/
def audit_log (now : Nat) (event_type : String) (details : List (String × JVal))
    (session_id : Option String) : AuditEvent :=
  { timestamp := now, event := event_type, session_id := session_id, details := details }

/-- An HTTP response: status code plus JSON body (field order as
`jsonify` receives it). -/
structure HttpResponse where
  status : Nat
  body : List (String × JVal)
deriving DecidableEq, Repr

section Lemmas

theorem storeLookup_isSome_iff (s : Store) (t : String) :
    (storeLookup s t).isSome = true ↔ t ∈ storeKeys s := by
  induction s with
  | nil => simp [storeLookup, storeKeys]
  | cons p rest ih =>
    obtain ⟨k, v⟩ := p
    by_cases hk : k = t
    · subst hk
      simp [storeLookup, storeKeys]
    · simp [storeLookup, storeKeys, hk, ih, Ne.symm hk]

theorem storeLookup_erase_self (s : Store) (t : String) :
    storeLookup (storeErase s t) t = none := by
  induction s with
  | nil => rfl
  | cons p rest ih =>
    obtain ⟨k, v⟩ := p
    by_cases hk : k = t
    · subst hk
      simpa [storeErase, storeLookup] using ih
    · simpa [storeErase, storeLookup, hk, bne_iff_ne] using ih

theorem storeErase_of_absent (s : Store) (t : String)
    (h : storeLookup s t = none) : storeErase s t = s := by
  induction s with
  | nil => rfl
  | cons p rest ih =>
    obtain ⟨k, v⟩ := p
    by_cases hk : k = t
    · subst hk
      simp [storeLookup] at h
    · simp [storeLookup, hk] at h
      simp [storeErase, hk, bne_iff_ne] at ih ⊢
      exact ih h

theorem storeKeys_touch (s : Store) (t : String) (now : Nat) :
    storeKeys (storeTouch s t now) = storeKeys s := by
  induction s with
  | nil => rfl
  | cons p rest ih =>
    obtain ⟨k, v⟩ := p
    by_cases hk : k = t <;> simp [storeTouch, storeKeys, hk] at ih ⊢ <;> exact ih

theorem storeKeys_insert (s : Store) (t : String) (v : Session)
    (h : storeLookup s t = none) :
    storeKeys (storeInsert s t v) = t :: storeKeys s := by
  simp [storeInsert, storeKeys, storeErase_of_absent s t h]

theorem storeLookup_insert_self (s : Store) (t : String) (v : Session) :
    storeLookup (storeInsert s t v) t = some v := by
  simp [storeInsert, storeLookup]

theorem storeKeys_erase (s : Store) (t : String) :
    storeKeys (storeErase s t) = (storeKeys s).filter (fun k => k != t) := by
  induction s with
  | nil => rfl
  | cons p rest ih =>
    by_cases hk : (p.1 != t) = true <;>
      simp [storeErase, storeKeys, List.filter_cons, hk] at ih ⊢ <;> exact ih

theorem mem_storeKeys_erase (s : Store) (t k : String) (hmem : k ∈ storeKeys s)
    (hne : k ≠ t) : k ∈ storeKeys (storeErase s t) := by
  rw [storeKeys_erase]
  exact List.mem_filter.mpr ⟨hmem, by simpa [bne_iff_ne] using hne⟩

end Lemmas

/-!
## SHA-256 and the redaction helper

`hash_sensitive_data(data)` is `hashlib.sha256(data.encode()).hexdigest()[:16]`.
`data.encode()` is UTF-8; the digest is rendered as 64 lowercase hex
characters and the first 16 are kept.  SHA-256 is embedded over `Nat`
bytes and 32-bit words, with `% 2 ^ 32` wherever 32-bit overflow matters.
-/

/-- Truncate to a 32-bit word. -/
def w32 (n : Nat) : Nat := n % 4294967296

/-- 32-bit right rotation. -/
def rotr32 (x n : Nat) : Nat := w32 ((x >>> n) ||| (x <<< (32 - n)))

/-- SHA-256 Σ₀. -/
def bsig0 (x : Nat) : Nat := (rotr32 x 2) ^^^ (rotr32 x 13) ^^^ (rotr32 x 22)

/-- SHA-256 Σ₁. -/
def bsig1 (x : Nat) : Nat := (rotr32 x 6) ^^^ (rotr32 x 11) ^^^ (rotr32 x 25)

/-- SHA-256 σ₀. -/
def ssig0 (x : Nat) : Nat := (rotr32 x 7) ^^^ (rotr32 x 18) ^^^ (x >>> 3)

/-- SHA-256 σ₁. -/
def ssig1 (x : Nat) : Nat := (rotr32 x 17) ^^^ (rotr32 x 19) ^^^ (x >>> 10)

/-- SHA-256 Ch, with 32-bit complement via xor with all-ones. -/
def chf (x y z : Nat) : Nat := (x &&& y) ^^^ ((x ^^^ 4294967295) &&& z)

/-- SHA-256 Maj. -/
def majf (x y z : Nat) : Nat := (x &&& y) ^^^ (x &&& z) ^^^ (y &&& z)

/-- The 64 SHA-256 round constants (FIPS 180-4, in decimal). -/
def K256 : List Nat :=
  [1116352408, 1899447441, 3049323471, 3921009573,
   961987163, 1508970993, 2453635748, 2870763221,
   3624381080, 310598401, 607225278, 1426881987,
   1925078388, 2162078206, 2614888103, 3248222580,
   3835390401, 4022224774, 264347078, 604807628,
   770255983, 1249150122, 1555081692, 1996064986,
   2554220882, 2821834349, 2952996808, 3210313671,
   3336571891, 3584528711, 113926993, 338241895,
   666307205, 773529912, 1294757372, 1396182291,
   1695183700, 1986661051, 2177026350, 2456956037,
   2730485921, 2820302411, 3259730800, 3345764771,
   3516065817, 3600352804, 4094571909, 275423344,
   430227734, 506948616, 659060556, 883997877,
   958139571, 1322822218, 1537002063, 1747873779,
   1955562222, 2024104815, 2227730452, 2361852424,
   2428436474, 2756734187, 3204031479, 3329325298]

/-- The eight SHA-256 working variables. -/
structure H8 where
  a : Nat
  b : Nat
  c : Nat
  d : Nat
  e : Nat
  f : Nat
  g : Nat
  h : Nat

/-- The SHA-256 initial hash value (FIPS 180-4, in decimal). -/
def sha256Init : H8 :=
  ⟨1779033703, 3144134277, 1013904242, 2773480762,
   1359893119, 2600822924, 528734635, 1541459225⟩

/-- Pack big-endian byte quadruples into 32-bit words. -/
def bytesToWords : List Nat → List Nat
  | b0 :: b1 :: b2 :: b3 :: rest =>
      (b0 * 16777216 + b1 * 65536 + b2 * 256 + b3) :: bytesToWords rest
  | _ => []

/-- Extend the message schedule `n` more words; the accumulator holds the
schedule so far in reverse (most recent word first). -/
def scheduleExt : Nat → List Nat → List Nat
  | 0, rw => rw
  | n + 1, rw =>
      scheduleExt n
        (w32 (rw.getD 15 0 + ssig0 (rw.getD 14 0) + rw.getD 6 0 + ssig1 (rw.getD 1 0)) :: rw)

/-- The 64-word message schedule of one 64-byte chunk. -/
def sha256Schedule (chunk : List Nat) : List Nat :=
  (scheduleExt 48 (bytesToWords chunk).reverse).reverse

/-- One SHA-256 round; `kw` is the round constant plus the schedule word. -/
def sha256Round (st : H8) (kw : Nat) : H8 :=
  let t1 := w32 (st.h + bsig1 st.e + chf st.e st.f st.g + kw)
  let t2 := w32 (bsig0 st.a + majf st.a st.b st.c)
  ⟨w32 (t1 + t2), st.a, st.b, st.c, w32 (st.d + t1), st.e, st.f, st.g⟩

/-- Compress one 64-byte chunk into the running hash state. -/
def sha256Compress (st : H8) (chunk : List Nat) : H8 :=
  let st2 := (List.zipWith (fun k wi => k + wi) K256 (sha256Schedule chunk)).foldl sha256Round st
  ⟨w32 (st.a + st2.a), w32 (st.b + st2.b), w32 (st.c + st2.c), w32 (st.d + st2.d),
   w32 (st.e + st2.e), w32 (st.f + st2.f), w32 (st.g + st2.g), w32 (st.h + st2.h)⟩

/-- Fold the compression function over `n` successive 64-byte chunks. -/
def sha256Chunks : Nat → List Nat → H8 → H8
  | 0, _, st => st
  | n + 1, l, st => sha256Chunks n (l.drop 64) (sha256Compress st (l.take 64))

/-- A natural number as 8 big-endian bytes. -/
def toBytes8 (n : Nat) : List Nat :=
  [n / 72057594037927936 % 256, n / 281474976710656 % 256, n / 1099511627776 % 256,
   n / 4294967296 % 256, n / 16777216 % 256, n / 65536 % 256, n / 256 % 256, n % 256]

/-- SHA-256 padding: append `0x80`, zero bytes up to 56 mod 64, then the
bit length as 8 big-endian bytes. -/
def sha256Pad (msg : List Nat) : List Nat :=
  msg ++ [128] ++ List.replicate ((119 - msg.length % 64) % 64) 0 ++ toBytes8 (msg.length * 8)

/-- The SHA-256 state after absorbing a whole byte message. -/
def sha256Words (msg : List Nat) : H8 :=
  let p := sha256Pad msg
  sha256Chunks (p.length / 64) p sha256Init

/-- One lowercase hex digit. -/
def hexChar (n : Nat) : Char :=
  if n < 10 then Char.ofNat (48 + n) else Char.ofNat (87 + n)

/-- A 32-bit word as 8 lowercase hex characters. -/
def wordHex (w : Nat) : List Char :=
  [hexChar (w / 268435456 % 16), hexChar (w / 16777216 % 16), hexChar (w / 1048576 % 16),
   hexChar (w / 65536 % 16), hexChar (w / 4096 % 16), hexChar (w / 256 % 16),
   hexChar (w / 16 % 16), hexChar (w % 16)]

/-- `hashlib.sha256(bytes).hexdigest()` as a character list (64 hex chars). -/
def sha256HexChars (msg : List Nat) : List Char :=
  let st := sha256Words msg
  wordHex st.a ++ wordHex st.b ++ wordHex st.c ++ wordHex st.d ++
    wordHex st.e ++ wordHex st.f ++ wordHex st.g ++ wordHex st.h

/-- UTF-8 encoding of one Unicode code point. -/
def utf8EncodeChar (c : Nat) : List Nat :=
  if c < 128 then [c]
  else if c < 2048 then [192 + c / 64, 128 + c % 64]
  else if c < 65536 then [224 + c / 4096, 128 + c / 64 % 64, 128 + c % 64]
  else [240 + c / 262144, 128 + c / 4096 % 64, 128 + c / 64 % 64, 128 + c % 64]

/-- `data.encode()`: the UTF-8 bytes of a string. -/
def utf8Bytes (s : String) : List Nat :=
  (s.data.map (fun c => utf8EncodeChar c.toNat)).flatten

/-- `hash_sensitive_data(data)`:
`hashlib.sha256(data.encode()).hexdigest()[:16]`. -/
def hash_sensitive_data (s : String) : String :=
  String.mk ((sha256HexChars (utf8Bytes s)).take 16)

/-- Sanity vector: the truncated digest of the empty string matches the
first 16 hex characters of the published SHA-256 value. -/
theorem sha256_vector_empty : hash_sensitive_data "" = "e3b0c44298fc1c14" := by decide

/-- Sanity vector: the truncated digest of `"abc"` matches the first 16
hex characters of the published SHA-256 value. -/
theorem sha256_vector_abc : hash_sensitive_data "abc" = "ba7816bf8f01cfea" := by decide

/-- The redaction helper always returns exactly 16 characters. -/
theorem hash_sensitive_data_length (s : String) : (hash_sensitive_data s).length = 16 := by
  have h64 : (sha256HexChars (utf8Bytes s)).length = 64 := by
    simp [sha256HexChars, wordHex]
  simp [hash_sensitive_data, String.length, h64]

/-!
## AI dispatch gateway (`process_with_ai`)

The three provider SDKs are consumed, not reimplemented: the embedding
records the exact outbound request (`ProviderCall`) each branch of the
string switch builds, and obtains the provider's raw text from the
oracle.  The anthropic branch of the source passes no `temperature`
argument, so that field is an `Option`.
-/

/-- The text of the f-string prompt before the interpolated
`{transcription}`. -/
def promptHead : String :=
  "\n    You are an AI assistant specialized in medical transcription and clinical decision support. Your task is to analyze the following medical transcription and provide a structured response based on the transcription, following the FHIR (Fast Healthcare Interoperability Resources) format.\n\n    Medical Transcription:\n    "

/-- The text of the f-string prompt after the interpolated
`{transcription}`. -/
def promptTail : String :=
  "\n\n    Please provide a comprehensive analysis based on the transcription, including potential diagnoses (differential diagnosis and testing to support medical decision making), medications, procedures, and recommendations for further action or treatment. Structure your response as a JSON object with the following FHIR-compliant resources:\n\n    1. Patient\n    2. Condition (list of potential diagnoses)\n    3. MedicationStatement (list of mentioned medications)\n    4. Procedure (list of mentioned or recommended procedures)\n    5. CarePlan (list of recommendations or follow-up actions)\n\n    Ensure that each resource follows the FHIR structure and includes relevant details from the transcription.\n    "

/-- The prompt built by `process_with_ai`, embedding the transcription
text verbatim between the two fixed pieces. -/
def buildPrompt (transcription : String) : String :=
  promptHead ++ transcription ++ promptTail

/-- One outbound completion request to a provider SDK. -/
structure ProviderCall where
  provider : String
  model : String
  prompt : String
  temperature : Option ℚ
  max_tokens : Nat
deriving DecidableEq

/-- `process_with_ai(transcription, model_type)`: the string switch over
providers.  Returns the call made and the provider's raw text, or the
`ValueError` message for an unknown provider. -/
def process_with_ai (oracle : ProviderCall → String)
    (transcription model_type : String) : Except String (ProviderCall × String) :=
  let prompt := buildPrompt transcription
  if model_type = "openai" then
    let call : ProviderCall := ⟨"openai", "gpt-4", prompt, some (7 / 10), 2000⟩
    .ok (call, oracle call)
  else if model_type = "anthropic" then
    let call : ProviderCall := ⟨"anthropic", "claude-3-opus-20240229", prompt, none, 2000⟩
    .ok (call, oracle call)
  else if model_type = "groq" then
    let call : ProviderCall := ⟨"groq", "mixtral-8x7b-32768", prompt, some (7 / 10), 2000⟩
    .ok (call, oracle call)
  else
    .error ("Unsupported model type: " ++ model_type)

/-!
## HTTP handlers

Each handler returns the updated store, the audit events written (in
order), the provider calls made, and the HTTP response.
-/

/-- The outcome of serving one request. -/
structure HandlerResult where
  store : Store
  events : List AuditEvent
  calls : List ProviderCall
  response : HttpResponse
deriving DecidableEq

/-- The parsed JSON body of a `/api/transcribe` request;
`data.get(k)` yields `none` for an absent field. -/
structure TranscribeRequest where
  session_token : Option String
  transcription : Option String
  model : Option String
deriving DecidableEq

/-- `GET /api/health`. -/
def health_check (now : Nat) : HttpResponse :=
  ⟨200, [("status", .str "healthy"), ("service", .str "Aidstack Medical AI Backend"),
         ("timestamp", .nat now)]⟩

/-- `POST /api/session/create`; `token` is the value produced by
`generate_session_token()` (a fresh `secrets.token_urlsafe(32)` draw). -/
def create_session (store : Store) (token : String) (now : Nat) : HandlerResult :=
  let store2 := storeInsert store token ⟨now, now⟩
  { store := store2,
    events := [audit_log now "SESSION_CREATED"
      [("session_token_hash", .str (hash_sensitive_data token))] none],
    calls := [],
    response := ⟨200, [("session_token", .str token), ("expires_in", .nat 3600)]⟩ }

/-- `POST /api/transcribe`. -/
def process_transcription (oracle : ProviderCall → String) (store : Store)
    (req : TranscribeRequest) (now : Nat) : HandlerResult :=
  match req.session_token with
  | none =>
      { store := store,
        events := [audit_log now "UNAUTHORIZED_ACCESS"
          [("reason", .str "Invalid session token")] none],
        calls := [],
        response := ⟨401, [("error", .str "Unauthorized")]⟩ }
  | some tok =>
      if tok = "" ∨ storeLookup store tok = none then
        { store := store,
          events := [audit_log now "UNAUTHORIZED_ACCESS"
            [("reason", .str "Invalid session token")] none],
          calls := [],
          response := ⟨401, [("error", .str "Unauthorized")]⟩ }
      else
        let store2 := storeTouch store tok now
        let transcription := req.transcription.getD ""
        let model_type := req.model.getD "openai"
        let tpEvent := audit_log now "TRANSCRIPTION_PROCESSED"
          [("model", .str model_type),
           ("transcription_hash", .str (hash_sensitive_data transcription)),
           ("length", .nat transcription.length)]
          (some (hash_sensitive_data tok))
        match process_with_ai oracle transcription model_type with
        | .ok (call, content) =>
            { store := store2,
              events := [tpEvent],
              calls := [call],
              response := ⟨200, [("success", .bool true), ("response", .str content),
                ("model", .str model_type), ("timestamp", .nat now)]⟩ }
        | .error e =>
            { store := store2,
              events := [tpEvent, audit_log now "ERROR" [("error", .str e)] none],
              calls := [],
              response := ⟨500, [("error", .str "Internal server error")]⟩ }

/-- `POST /api/session/validate`. -/
def validate_session (store : Store) (token : Option String) (now : Nat) : HandlerResult :=
  let is_valid := match token with
    | some t => isValid store t
    | none => false
  { store := store, events := [], calls := [],
    response := ⟨200, [("valid", .bool is_valid), ("timestamp", .nat now)]⟩ }

/-- `POST /api/session/destroy`. -/
def destroy_session (store : Store) (token : Option String) (now : Nat) : HandlerResult :=
  match token with
  | some t =>
      if isValid store t then
        { store := storeErase store t,
          events := [audit_log now "SESSION_DESTROYED"
            [("session_token_hash", .str (hash_sensitive_data t))] none],
          calls := [],
          response := ⟨200, [("success", .bool true)]⟩ }
      else
        { store := store, events := [], calls := [],
          response := ⟨200, [("success", .bool true)]⟩ }
  | none =>
      { store := store, events := [], calls := [],
        response := ⟨200, [("success", .bool true)]⟩ }

/-!
## Claim theorems
-/

/-- C1: every `/transcribe` request whose `session_token` is missing or
not a key of the session store is audited as `UNAUTHORIZED_ACCESS`,
answered with 401 `{error: 'Unauthorized'}`, makes no provider call, and
leaves the store unchanged. -/
theorem transcribe_unauthorized (oracle : ProviderCall → String) (store : Store)
    (req : TranscribeRequest) (now : Nat)
    (h : req.session_token.bind (storeLookup store) = none) :
    (process_transcription oracle store req now).response =
        ⟨401, [("error", JVal.str "Unauthorized")]⟩ ∧
    (process_transcription oracle store req now).events =
        [⟨now, "UNAUTHORIZED_ACCESS", none, [("reason", JVal.str "Invalid session token")]⟩] ∧
    (process_transcription oracle store req now).calls = [] ∧
    (process_transcription oracle store req now).store = store := by
  rcases hs : req.session_token with _ | tok
  · simp [process_transcription, hs, audit_log]
  · rw [hs] at h
    simp only [Option.some_bind] at h
    simp [process_transcription, hs, h, audit_log]

/-- Witness for C1 at the token `"bogus"` over the empty store. -/
theorem transcribe_unauthorized_witness :
    (some "bogus" : Option String).bind (storeLookup []) = none ∧
    ((process_transcription (fun _ => "r") [] ⟨some "bogus", some "t", some "openai"⟩ 0).response =
        ⟨401, [("error", JVal.str "Unauthorized")]⟩ ∧
     (process_transcription (fun _ => "r") [] ⟨some "bogus", some "t", some "openai"⟩ 0).events =
        [⟨0, "UNAUTHORIZED_ACCESS", none, [("reason", JVal.str "Invalid session token")]⟩] ∧
     (process_transcription (fun _ => "r") [] ⟨some "bogus", some "t", some "openai"⟩ 0).calls = [] ∧
     (process_transcription (fun _ => "r") [] ⟨some "bogus", some "t", some "openai"⟩ 0).store = []) :=
  ⟨rfl, transcribe_unauthorized (fun _ => "r") [] ⟨some "bogus", some "t", some "openai"⟩ 0 rfl⟩

/-- C4: `create` always succeeds: it returns the generated token with
the 3600s TTL hint, and immediately afterwards the token is a key of the
store whose record has `created_at = last_active = now`; a fresh token
is prepended to the key set. -/
theorem create_session_spec (store : Store) (token : String) (now : Nat)
    (h : storeLookup store token = none) :
    (create_session store token now).response =
        ⟨200, [("session_token", JVal.str token), ("expires_in", JVal.nat 3600)]⟩ ∧
    storeLookup (create_session store token now).store token = some ⟨now, now⟩ ∧
    isValid (create_session store token now).store token = true ∧
    storeKeys (create_session store token now).store = token :: storeKeys store := by
  refine ⟨rfl, ?_, ?_, ?_⟩
  · simpa [create_session] using storeLookup_insert_self store token ⟨now, now⟩
  · simp [isValid, create_session, storeLookup_insert_self]
  · simpa [create_session] using storeKeys_insert store token ⟨now, now⟩ h

/-- Witness for C4 with a fresh token over the empty store. -/
theorem create_session_spec_witness :
    storeLookup [] "tk" = none ∧
    ((create_session [] "tk" 5).response =
        ⟨200, [("session_token", JVal.str "tk"), ("expires_in", JVal.nat 3600)]⟩ ∧
     storeLookup (create_session [] "tk" 5).store "tk" = some ⟨5, 5⟩ ∧
     isValid (create_session [] "tk" 5).store "tk" = true ∧
     storeKeys (create_session [] "tk" 5).store = "tk" :: storeKeys []) :=
  ⟨rfl, create_session_spec [] "tk" 5 rfl⟩

/-- C6: `destroy` followed by `isValid` is false; a present token is
erased and audited as `SESSION_DESTROYED`, an absent or missing token
leaves the store untouched with no event; the endpoint always answers
200 `{success: true}`. -/
theorem destroy_session_spec (store : Store) (t : String) (now : Nat) :
    isValid (destroy_session store (some t) now).store t = false ∧
    (destroy_session store (some t) now).store =
        (if isValid store t then storeErase store t else store) ∧
    (destroy_session store (some t) now).events =
        (if isValid store t then
          [⟨now, "SESSION_DESTROYED", none,
            [("session_token_hash", JVal.str (hash_sensitive_data t))]⟩]
         else []) ∧
    (destroy_session store (some t) now).response = ⟨200, [("success", JVal.bool true)]⟩ ∧
    (destroy_session store none now).store = store ∧
    (destroy_session store none now).events = [] ∧
    (destroy_session store none now).response = ⟨200, [("success", JVal.bool true)]⟩ := by
  by_cases h : isValid store t = true
  · have h2 : (storeLookup store t).isSome = true := h
    refine ⟨?_, ?_, ?_, ?_, rfl, rfl, rfl⟩ <;>
      simp [destroy_session, isValid, h2, audit_log, storeLookup_erase_self]
  · have h2 : (storeLookup store t).isSome = false := by
      simpa [isValid] using h
    refine ⟨?_, ?_, ?_, ?_, rfl, rfl, rfl⟩ <;>
      simp [destroy_session, isValid, h2, audit_log]

/-- C9: `/session/validate` never mutates the store, writes no audit
event, makes no provider call, and answers 200 with `valid` true exactly
when the (possibly absent) token is a key of the store. -/
theorem validate_session_frame (store : Store) (token : Option String) (now : Nat) :
    (validate_session store token now).store = store ∧
    (validate_session store token now).events = [] ∧
    (validate_session store token now).calls = [] ∧
    (validate_session store token now).response.status = 200 ∧
    ∃ b : Bool, (validate_session store token now).response.body =
        [("valid", JVal.bool b), ("timestamp", JVal.nat now)] ∧
      (b = true ↔ ∃ t, token = some t ∧ t ∈ storeKeys store) := by
  refine ⟨rfl, rfl, rfl, rfl, ?_⟩
  rcases token with _ | t
  · exact ⟨false, rfl, by simp⟩
  · refine ⟨isValid store t, rfl, ?_⟩
    simp [isValid, storeLookup_isSome_iff]

/-- C5: expiry is never enforced.  `isValid` is pure key membership
(independent of the request time and of the stored timestamps), the
`valid` bit reported by `/session/validate` is the same at any two
times, and among the handlers only `destroy` can remove a key — and only
its own token. -/
theorem ttl_never_enforced (oracle : ProviderCall → String) (store : Store)
    (k t : String) (req : TranscribeRequest) (tok2 : Option String) (now now2 : Nat)
    (hk : k ∈ storeKeys store) :
    (isValid store t = true ↔ t ∈ storeKeys store) ∧
    ("valid", JVal.bool (isValid store t)) ∈
        (validate_session store (some t) now).response.body ∧
    ("valid", JVal.bool (isValid store t)) ∈
        (validate_session store (some t) now2).response.body ∧
    (validate_session store tok2 now).store = store ∧
    k ∈ storeKeys (create_session store t now).store ∧
    storeKeys (process_transcription oracle store req now).store = storeKeys store ∧
    (k ≠ t → k ∈ storeKeys (destroy_session store (some t) now).store) ∧
    (destroy_session store none now).store = store := by
  refine ⟨by simp [isValid, storeLookup_isSome_iff], by simp [validate_session],
    by simp [validate_session], rfl, ?_, ?_, ?_, rfl⟩
  · by_cases hkt : k = t
    · simp [create_session, storeInsert, storeKeys, hkt]
    · simp only [create_session, storeInsert, storeKeys, List.map_cons]
      exact List.mem_cons_of_mem _ (mem_storeKeys_erase store t k hk hkt)
  · rcases hs : req.session_token with _ | tok
    · simp [process_transcription, hs]
    · by_cases hcond : tok = "" ∨ storeLookup store tok = none
      · simp [process_transcription, hs, hcond]
      · cases hpa : process_with_ai oracle (req.transcription.getD "") (req.model.getD "openai") with
        | ok p =>
            obtain ⟨call, content⟩ := p
            simp [process_transcription, hs, hcond, hpa, storeKeys_touch]
        | error e =>
            simp [process_transcription, hs, hcond, hpa, storeKeys_touch]
  · intro hkt
    by_cases hv : (storeLookup store t).isSome = true
    · simp only [destroy_session, isValid, hv, if_true]
      exact mem_storeKeys_erase store t k hk hkt
    · simp [destroy_session, isValid, hv, hk]

/-- Witness for C5: a store holding `"tk"`, validated and destroyed with
an unrelated token. -/
theorem ttl_never_enforced_witness :
    "tk" ∈ storeKeys [("tk", Session.mk 0 0)] ∧
    ((isValid [("tk", Session.mk 0 0)] "other" = true ↔
        "other" ∈ storeKeys [("tk", Session.mk 0 0)]) ∧
     ("valid", JVal.bool (isValid [("tk", Session.mk 0 0)] "other")) ∈
        (validate_session [("tk", Session.mk 0 0)] (some "other") 1).response.body ∧
     ("valid", JVal.bool (isValid [("tk", Session.mk 0 0)] "other")) ∈
        (validate_session [("tk", Session.mk 0 0)] (some "other") 999999).response.body ∧
     (validate_session [("tk", Session.mk 0 0)] (some "tk") 1).store =
        [("tk", Session.mk 0 0)] ∧
     "tk" ∈ storeKeys (create_session [("tk", Session.mk 0 0)] "other" 1).store ∧
     storeKeys (process_transcription (fun _ => "r") [("tk", Session.mk 0 0)]
        ⟨some "tk", some "x", some "openai"⟩ 1).store =
        storeKeys [("tk", Session.mk 0 0)] ∧
     ("tk" ≠ "other" →
        "tk" ∈ storeKeys (destroy_session [("tk", Session.mk 0 0)] (some "other") 1).store) ∧
     (destroy_session [("tk", Session.mk 0 0)] none 1).store = [("tk", Session.mk 0 0)]) :=
  ⟨by decide, ttl_never_enforced (fun _ => "r") [("tk", Session.mk 0 0)] "tk" "other"
      ⟨some "tk", some "x", some "openai"⟩ (some "tk") 1 999999 (by decide)⟩

/-- C7: an unknown provider key makes `process_with_ai` fail with a
`ValueError` carrying the offending key, and `/transcribe` converts that
failure into a generic 500 body that differs from the raw exception
text. -/
theorem unsupported_provider_generic_error (oracle : ProviderCall → String) (store : Store)
    (tok T m : String) (now : Nat)
    (hm : ¬(m = "openai" ∨ m = "anthropic" ∨ m = "groq"))
    (hvalid : isValid store tok = true) (htok : tok ≠ "") :
    process_with_ai oracle T m = .error ("Unsupported model type: " ++ m) ∧
    (process_transcription oracle store ⟨some tok, some T, some m⟩ now).response =
        ⟨500, [("error", JVal.str "Internal server error")]⟩ ∧
    (process_transcription oracle store ⟨some tok, some T, some m⟩ now).calls = [] ∧
    ("Internal server error" : String) ≠ "Unsupported model type: " ++ m := by
  push_neg at hm
  obtain ⟨hm1, hm2, hm3⟩ := hm
  have hpa : process_with_ai oracle T m = .error ("Unsupported model type: " ++ m) := by
    simp [process_with_ai, hm1, hm2, hm3]
  have hcond : ¬(tok = "" ∨ storeLookup store tok = none) := by
    rintro (h1 | h2)
    · exact htok h1
    · rw [isValid, h2] at hvalid
      simp at hvalid
  refine ⟨hpa, ?_, ?_, ?_⟩
  · simp [process_transcription, hcond, hpa]
  · simp [process_transcription, hcond, hpa]
  · intro heq
    have hlen := congrArg String.length heq
    rw [String.length_append] at hlen
    have h1 : ("Internal server error" : String).length = 21 := rfl
    have h2 : ("Unsupported model type: " : String).length = 24 := rfl
    omega

/-- Witness for C7 at the unknown provider `"foo"`. -/
theorem unsupported_provider_generic_error_witness :
    ¬(("foo" : String) = "openai" ∨ ("foo" : String) = "anthropic" ∨
        ("foo" : String) = "groq") ∧
    isValid [("tk", Session.mk 0 0)] "tk" = true ∧ ("tk" : String) ≠ "" ∧
    (process_with_ai (fun _ => "r") "text" "foo" =
        .error ("Unsupported model type: " ++ "foo") ∧
     (process_transcription (fun _ => "r") [("tk", Session.mk 0 0)]
        ⟨some "tk", some "text", some "foo"⟩ 3).response =
        ⟨500, [("error", JVal.str "Internal server error")]⟩ ∧
     (process_transcription (fun _ => "r") [("tk", Session.mk 0 0)]
        ⟨some "tk", some "text", some "foo"⟩ 3).calls = [] ∧
     ("Internal server error" : String) ≠ "Unsupported model type: " ++ "foo") :=
  ⟨by decide, by decide, by decide,
   unsupported_provider_generic_error (fun _ => "r") [("tk", Session.mk 0 0)]
     "tk" "text" "foo" 3 (by decide) (by decide) (by decide)⟩

/-- C10: with a valid session, a `/transcribe` request with absent
`model` and `transcription` fields is served exactly as if they were
`"openai"` and `""`: same result, answered 200 with model `"openai"`,
not rejected. -/
theorem transcribe_default_fields (oracle : ProviderCall → String) (store : Store)
    (tok : String) (now : Nat)
    (hvalid : isValid store tok = true) (htok : tok ≠ "") :
    process_transcription oracle store ⟨some tok, none, none⟩ now =
      process_transcription oracle store ⟨some tok, some "", some "openai"⟩ now ∧
    (process_transcription oracle store ⟨some tok, none, none⟩ now).response.status = 200 ∧
    ("model", JVal.str "openai") ∈
      (process_transcription oracle store ⟨some tok, none, none⟩ now).response.body := by
  have hcond : ¬(tok = "" ∨ storeLookup store tok = none) := by
    rintro (h1 | h2)
    · exact htok h1
    · rw [isValid, h2] at hvalid
      simp at hvalid
  refine ⟨rfl, ?_, ?_⟩ <;> simp [process_transcription, process_with_ai, hcond]

/-- Witness for C10 over a store holding the valid token `"tk"`. -/
theorem transcribe_default_fields_witness :
    isValid [("tk", Session.mk 0 0)] "tk" = true ∧ ("tk" : String) ≠ "" ∧
    (process_transcription (fun _ => "r") [("tk", Session.mk 0 0)]
        ⟨some "tk", none, none⟩ 3 =
      process_transcription (fun _ => "r") [("tk", Session.mk 0 0)]
        ⟨some "tk", some "", some "openai"⟩ 3 ∧
     (process_transcription (fun _ => "r") [("tk", Session.mk 0 0)]
        ⟨some "tk", none, none⟩ 3).response.status = 200 ∧
     ("model", JVal.str "openai") ∈
       (process_transcription (fun _ => "r") [("tk", Session.mk 0 0)]
          ⟨some "tk", none, none⟩ 3).response.body) :=
  ⟨by decide, by decide,
   transcribe_default_fields (fun _ => "r") [("tk", Session.mk 0 0)] "tk" 3
     (by decide) (by decide)⟩

/-- C2: the `TRANSCRIPTION_PROCESSED` event of an authorized
`/transcribe` request carries, besides the model field, exactly the
16-character truncated digest of the transcription and its length — and
the transcription text itself is not among the detail values. -/
theorem transcription_hash_redaction (oracle : ProviderCall → String) (store : Store)
    (tok T m : String) (now : Nat)
    (hvalid : isValid store tok = true) (htok : tok ≠ "")
    (hT : T.length ≠ 16) (hm : m ≠ T) :
    (process_transcription oracle store ⟨some tok, some T, some m⟩ now).events.filter
        (fun e => e.event == "TRANSCRIPTION_PROCESSED") =
      [⟨now, "TRANSCRIPTION_PROCESSED", some (hash_sensitive_data tok),
        [("model", JVal.str m), ("transcription_hash", JVal.str (hash_sensitive_data T)),
         ("length", JVal.nat T.length)]⟩] ∧
    (hash_sensitive_data T).length = 16 ∧
    JVal.str T ∉ ([("model", JVal.str m),
        ("transcription_hash", JVal.str (hash_sensitive_data T)),
        ("length", JVal.nat T.length)].map Prod.snd) := by
  have hcond : ¬(tok = "" ∨ storeLookup store tok = none) := by
    rintro (h1 | h2)
    · exact htok h1
    · rw [isValid, h2] at hvalid
      simp at hvalid
  have hhash : hash_sensitive_data T ≠ T := by
    intro he
    exact hT (by rw [← he, hash_sensitive_data_length])
  refine ⟨?_, hash_sensitive_data_length T, ?_⟩
  · cases hpa : process_with_ai oracle T m with
    | ok p =>
        obtain ⟨call, content⟩ := p
        simp [process_transcription, hcond, hpa, audit_log]
    | error e =>
        simp [process_transcription, hcond, hpa, audit_log]
  · simp [Ne.symm hm, Ne.symm hhash]

/-- Witness for C2 at the transcription `"patient has fever"` over a
store holding the valid token `"tk"`. -/
theorem transcription_hash_redaction_witness :
    isValid [("tk", Session.mk 0 0)] "tk" = true ∧ ("tk" : String) ≠ "" ∧
    ("patient has fever" : String).length ≠ 16 ∧
    ("openai" : String) ≠ "patient has fever" ∧
    ((process_transcription (fun _ => "r") [("tk", Session.mk 0 0)]
        ⟨some "tk", some "patient has fever", some "openai"⟩ 2).events.filter
          (fun e => e.event == "TRANSCRIPTION_PROCESSED") =
       [⟨2, "TRANSCRIPTION_PROCESSED", some (hash_sensitive_data "tk"),
         [("model", JVal.str "openai"),
          ("transcription_hash", JVal.str (hash_sensitive_data "patient has fever")),
          ("length", JVal.nat ("patient has fever" : String).length)]⟩] ∧
     (hash_sensitive_data "patient has fever").length = 16 ∧
     JVal.str "patient has fever" ∉ ([("model", JVal.str "openai"),
        ("transcription_hash", JVal.str (hash_sensitive_data "patient has fever")),
        ("length", JVal.nat ("patient has fever" : String).length)].map Prod.snd)) :=
  ⟨by decide, by decide, by decide, by decide,
   transcription_hash_redaction (fun _ => "r") [("tk", Session.mk 0 0)]
     "tk" "patient has fever" "openai" 2 (by decide) (by decide) (by decide) (by decide)⟩

/-- C3 counterexample: the user-supplied `model` field of a
`/transcribe` request reaches the `TRANSCRIPTION_PROCESSED` details
verbatim, and it is no 16-character digest. -/
theorem audit_model_field_raw :
    ∃ e ∈ (process_transcription (fun _ => "ok") [("tk", Session.mk 0 0)]
        ⟨some "tk", some "note", some "chief complaint chest pain"⟩ 7).events,
      e.event = "TRANSCRIPTION_PROCESSED" ∧
      ("model", JVal.str "chief complaint chest pain") ∈ e.details ∧
      ("chief complaint chest pain" : String).length ≠ 16 := by decide

/-- C3 amended: the audit events of an authorized `/transcribe` request
are exactly a `TRANSCRIPTION_PROCESSED` event — transcription present
only as its 16-character digest plus length, session reference hashed,
but the model field raw — followed, for an unknown provider, by an
`ERROR` event embedding the raw model string in its message. -/
theorem transcribe_audit_events_exact (oracle : ProviderCall → String) (store : Store)
    (tok T m : String) (now : Nat)
    (hvalid : isValid store tok = true) (htok : tok ≠ "") :
    (process_transcription oracle store ⟨some tok, some T, some m⟩ now).events =
      ⟨now, "TRANSCRIPTION_PROCESSED", some (hash_sensitive_data tok),
        [("model", JVal.str m), ("transcription_hash", JVal.str (hash_sensitive_data T)),
         ("length", JVal.nat T.length)]⟩ ::
      (if m = "openai" ∨ m = "anthropic" ∨ m = "groq" then []
       else [⟨now, "ERROR", none,
         [("error", JVal.str ("Unsupported model type: " ++ m))]⟩]) ∧
    (hash_sensitive_data T).length = 16 ∧
    (hash_sensitive_data tok).length = 16 := by
  have hcond : ¬(tok = "" ∨ storeLookup store tok = none) := by
    rintro (h1 | h2)
    · exact htok h1
    · rw [isValid, h2] at hvalid
      simp at hvalid
  refine ⟨?_, hash_sensitive_data_length T, hash_sensitive_data_length tok⟩
  by_cases h1 : m = "openai"
  · simp [process_transcription, process_with_ai, hcond, h1, audit_log]
  · by_cases h2 : m = "anthropic"
    · simp [process_transcription, process_with_ai, hcond, h1, h2, audit_log]
    · by_cases h3 : m = "groq"
      · simp [process_transcription, process_with_ai, hcond, h1, h2, h3, audit_log]
      · simp [process_transcription, process_with_ai, hcond, h1, h2, h3, audit_log]

/-- Witness for the amended C3 at the unknown provider `"foo"`. -/
theorem transcribe_audit_events_exact_witness :
    isValid [("tk", Session.mk 0 0)] "tk" = true ∧ ("tk" : String) ≠ "" ∧
    ((process_transcription (fun _ => "r") [("tk", Session.mk 0 0)]
        ⟨some "tk", some "note", some "foo"⟩ 7).events =
      ⟨7, "TRANSCRIPTION_PROCESSED", some (hash_sensitive_data "tk"),
        [("model", JVal.str "foo"),
         ("transcription_hash", JVal.str (hash_sensitive_data "note")),
         ("length", JVal.nat ("note" : String).length)]⟩ ::
      (if ("foo" : String) = "openai" ∨ ("foo" : String) = "anthropic" ∨
          ("foo" : String) = "groq" then []
       else [⟨7, "ERROR", none,
         [("error", JVal.str ("Unsupported model type: " ++ "foo"))]⟩]) ∧
     (hash_sensitive_data "note").length = 16 ∧
     (hash_sensitive_data "tk").length = 16) :=
  ⟨by decide, by decide,
   transcribe_audit_events_exact (fun _ => "r") [("tk", Session.mk 0 0)]
     "tk" "note" "foo" 7 (by decide) (by decide)⟩

/-- C8 counterexample: the anthropic branch of the dispatch passes no
temperature argument at all, so its call does not carry temperature
0.7. -/
theorem anthropic_call_without_temperature :
    process_with_ai (fun _ => "resp") "note" "anthropic" =
      .ok (⟨"anthropic", "claude-3-opus-20240229", buildPrompt "note", none, 2000⟩, "resp") ∧
    (⟨"anthropic", "claude-3-opus-20240229", buildPrompt "note", none, 2000⟩ :
        ProviderCall).temperature ≠ some (7 / 10) := by
  refine ⟨rfl, ?_⟩
  simp

/-- C8 amended: each supported provider key builds the fixed prompt
embedding the transcription verbatim and issues one call with its fixed
model identifier and the 2000-token cap, returning the oracle's raw
text; openai and groq pass temperature 0.7, anthropic passes no
temperature. -/
theorem dispatch_supported_providers (oracle : ProviderCall → String) (T : String) :
    buildPrompt T = promptHead ++ T ++ promptTail ∧
    process_with_ai oracle T "openai" =
      .ok (⟨"openai", "gpt-4", buildPrompt T, some (7 / 10), 2000⟩,
           oracle ⟨"openai", "gpt-4", buildPrompt T, some (7 / 10), 2000⟩) ∧
    process_with_ai oracle T "anthropic" =
      .ok (⟨"anthropic", "claude-3-opus-20240229", buildPrompt T, none, 2000⟩,
           oracle ⟨"anthropic", "claude-3-opus-20240229", buildPrompt T, none, 2000⟩) ∧
    process_with_ai oracle T "groq" =
      .ok (⟨"groq", "mixtral-8x7b-32768", buildPrompt T, some (7 / 10), 2000⟩,
           oracle ⟨"groq", "mixtral-8x7b-32768", buildPrompt T, some (7 / 10), 2000⟩) := by
  refine ⟨rfl, by simp [process_with_ai], by simp [process_with_ai], by simp [process_with_ai]⟩
